import Mathlib

/-!
Formal model of the idempotent checkout service of this repository
(`src/handlers/checkout.ts`, `src/services/pricing.ts`,
`src/services/order.ts`, `src/services/payment.ts`).

Monetary values are JavaScript numbers in the source; the model uses exact
rationals, translating `Math.round`, `Number.EPSILON` and the two-decimal
rounding helper literally (the spec allows "the platform's
nearest-representable equivalent").  DynamoDB operations are modelled by
their documented semantics: `GetCommand` is a key lookup, `PutCommand` with
condition `attribute_not_exists(cartId)` inserts only when the key is
absent and otherwise raises `ConditionalCheckFailedException`, and
`UpdateCommand` without a condition expression is an upsert that creates
the item when the key is absent.  External effects of one handler
invocation (generated ids and timestamps, the payment gateway outcome,
store faults, a concurrent writer racing between the idempotency read and
the conditional put) are supplied explicitly through an environment value.
-/

namespace Checkout

/-- `OrderStatus` from `src/types/index.ts`. -/
inductive OrderStatus
  | CREATED
  | PAYMENT_CAPTURED
  | PAYMENT_FAILED
deriving DecidableEq

/-- A validated cart item (`CartItemSchema` in `src/services/validation.ts`):
productId, name, price, quantity. -/
structure CartItem where
  productId : String
  name : String
  price : ℚ
  quantity : ℤ
deriving DecidableEq

/-- `PricedItem` from `src/types/index.ts`: a cart item plus its line total. -/
structure PricedItem extends CartItem where
  lineTotal : ℚ
deriving DecidableEq

/-- `PricingResult` from `src/types/index.ts`. -/
structure PricingResult where
  items : List PricedItem
  subtotal : ℚ
  tax : ℚ
  total : ℚ
deriving DecidableEq

/-- `TAX_RATE` constant from `src/services/pricing.ts` (0.10). -/
def TAX_RATE : ℚ := 10 / 100

/-- JavaScript `Number.EPSILON`, i.e. 2 ^ (-52), used inside `roundTo2`. -/
def numberEPSILON : ℚ := 1 / 2 ^ 52

/-- JavaScript `Math.round`: nearest integer, halves rounded toward positive
infinity, which on exact numbers is the floor of `x + 1/2`. -/
def mathRound (x : ℚ) : ℤ := ⌊x + 1 / 2⌋

/-- `roundTo2` from `src/services/pricing.ts`:
`Math.round((value + Number.EPSILON) * 100) / 100`. -/
def roundTo2 (value : ℚ) : ℚ := (mathRound ((value + numberEPSILON) * 100) : ℚ) / 100

/-- `calculateLineTotal` from `src/services/pricing.ts`: copies the item and
adds `lineTotal = roundTo2(price * quantity)`. -/
def calculateLineTotal (item : CartItem) : PricedItem :=
  { toCartItem := item, lineTotal := roundTo2 (item.price * (item.quantity : ℚ)) }

/-- `calculatePricing` from `src/services/pricing.ts`: line totals, then the
rounded subtotal of the line totals, then rounded tax, then rounded total. -/
def calculatePricing (items : List CartItem) : PricingResult :=
  let pricedItems := items.map calculateLineTotal
  let subtotal := roundTo2 (pricedItems.foldl (fun sum item => sum + item.lineTotal) 0)
  let tax := roundTo2 (subtotal * TAX_RATE)
  let total := roundTo2 (subtotal + tax)
  { items := pricedItems, subtotal := subtotal, tax := tax, total := total }






/-- A persisted DynamoDB item of the orders table.  Every attribute is
optional: a full `OrderRecord` (as written by `createOrder`) has every field
present, while an item created by an unconditional `UpdateCommand` upsert
carries only the key and the updated attributes. -/
structure Item where
  cartId : Option String
  orderId : Option String
  status : Option OrderStatus
  items : Option (List PricedItem)
  subtotal : Option ℚ
  tax : Option ℚ
  total : Option ℚ
  paymentToken : Option String
  createdAt : Option String
  ttl : Option ℤ
  transactionId : Option String
deriving DecidableEq

/-- An item with no attribute present. -/
def emptyItem : Item :=
  { cartId := none, orderId := none, status := none, items := none, subtotal := none,
    tax := none, total := none, paymentToken := none, createdAt := none, ttl := none,
    transactionId := none }

/-- The orders table, keyed by `cartId`. -/
abbrev Store := List (String × Item)

/-- DynamoDB `GetCommand` on the orders table: lookup by `cartId` key. -/
def lookupStore (store : Store) (cartId : String) : Option Item :=
  match store with
  | [] => none
  | (k, v) :: rest => if k = cartId then some v else lookupStore rest cartId

/-- Add a binding for a key that is not yet present. -/
def insertStore (store : Store) (cartId : String) (item : Item) : Store :=
  (cartId, item) :: store

/-- Overwrite the item stored under an existing key. -/
def replaceStore (store : Store) (cartId : String) (item : Item) : Store :=
  match store with
  | [] => []
  | (k, v) :: rest =>
      if k = cartId then (k, item) :: rest else (k, v) :: replaceStore rest cartId item

/-- The public `Order` shape from `src/types/index.ts`.  Fields are optional
because the source casts a raw DynamoDB item to `OrderRecord`, so an attribute
missing from the item is `undefined` on the resulting order.  There is no
`paymentToken` and no `ttl` field. -/
structure Order where
  orderId : Option String
  cartId : Option String
  status : Option OrderStatus
  items : Option (List PricedItem)
  subtotal : Option ℚ
  tax : Option ℚ
  total : Option ℚ
  createdAt : Option String
  transactionId : Option String
deriving DecidableEq

/-- `mapRecordToOrder` from `src/services/order.ts`: copies the public fields
and drops `paymentToken` and `ttl`.  The conditional spread of
`record.transactionId` keeps `transactionId` only when it is truthy,
i.e. present and not the empty string. -/
def mapRecordToOrder (record : Item) : Order :=
  { orderId := record.orderId, cartId := record.cartId, status := record.status,
    items := record.items, subtotal := record.subtotal, tax := record.tax,
    total := record.total, createdAt := record.createdAt,
    transactionId :=
      match record.transactionId with
      | some t => if t = "" then none else some t
      | none => none }

/-- `getExistingOrder` from `src/services/order.ts`: `GetCommand` by cartId,
`null` when absent, otherwise the record mapped to the public shape. -/
def getExistingOrder (store : Store) (cartId : String) : Option Order :=
  match lookupStore store cartId with
  | none => none
  | some item => some (mapRecordToOrder item)

/-- Per-invocation data that the source draws from the outside world:
the generated `ord-` uuid, the ISO timestamp and the ttl epoch. -/
structure Fresh where
  orderId : String
  createdAt : String
  ttl : ℤ

/-- The `OrderRecord` that `createOrder` builds before the conditional put:
status `CREATED`, totals frozen from the pricing result, the payment token,
and no `transactionId`. -/
def newOrderRecord (fresh : Fresh) (cartId : String) (paymentToken : String)
    (pricing : PricingResult) : Item :=
  { cartId := some cartId, orderId := some fresh.orderId,
    status := some OrderStatus.CREATED, items := some pricing.items,
    subtotal := some pricing.subtotal, tax := some pricing.tax,
    total := some pricing.total, paymentToken := some paymentToken,
    createdAt := some fresh.createdAt, ttl := some fresh.ttl, transactionId := none }

/-- Result of `createOrder`: the returned order, the `isExisting` flag
(the spec's `created` flag is its negation), and the store afterwards. -/
structure CreateResult where
  order : Order
  isExisting : Bool
  store : Store
deriving DecidableEq

/-- `createOrder` from `src/services/order.ts`.  `PutCommand` with condition
`attribute_not_exists(cartId)`: when the key is absent the record is written
and returned with `isExisting = false`; on `ConditionalCheckFailedException`
the existing order is read back and returned with `isExisting = true`,
leaving the store untouched; if that read finds nothing, a
`Race condition` error is thrown. -/
def createOrder (fresh : Fresh) (store : Store) (cartId : String)
    (paymentToken : String) (pricing : PricingResult) : Except String CreateResult :=
  let record := newOrderRecord fresh cartId paymentToken pricing
  match lookupStore store cartId with
  | none =>
      Except.ok
        { order := mapRecordToOrder record, isExisting := false,
          store := insertStore store cartId record }
  | some _ =>
      match getExistingOrder store cartId with
      | some existing =>
          Except.ok { order := existing, isExisting := true, store := store }
      | none => Except.error "Race condition: order disappeared after conditional check"

/-- JavaScript truthiness of the optional `transactionId` argument of
`updateOrderStatus`: present and not the empty string (the source builds
the update expression with `transactionId ? ... : ...`). -/
def txnProvided (transactionId : Option String) : Bool :=
  match transactionId with
  | some t => t ≠ ""
  | none => false

/-- `updateOrderStatus` from `src/services/order.ts`.  The `UpdateCommand`
carries no condition expression, so per DynamoDB semantics it is an upsert:
with the key present it sets `status` (and `transactionId` when the argument
is truthy); with the key absent it creates an item holding only the key and
those attributes. -/
def updateOrderStatus (store : Store) (cartId : String) (status : OrderStatus)
    (transactionId : Option String) : Store :=
  let txnTruthy : Bool := txnProvided transactionId
  match lookupStore store cartId with
  | some item =>
      replaceStore store cartId
        { item with
          status := some status,
          transactionId := if txnTruthy then transactionId else item.transactionId }
  | none =>
      insertStore store cartId
        { emptyItem with
          cartId := some cartId, status := some status,
          transactionId := if txnTruthy then transactionId else none }

/-- `FAILURE_TOKENS` from `src/services/payment.ts`. -/
def FAILURE_TOKENS : List String := ["tok_fail", "tok_declined", "tok_insufficient_funds"]

/-- Outcome of one call to the payment gateway, as observed by the handler's
try block: a capture with a transaction id, a `PaymentError` (the declined
case), or any other exception. -/
inductive GatewayOutcome
  | captured (transactionId : String)
  | declined (message : String)
  | unexpected (message : String)
deriving DecidableEq

/-- The mock gateway `capturePayment` from `src/services/payment.ts`, as a
gateway outcome: tokens in `FAILURE_TOKENS` raise
`PaymentError("Payment capture failed")`, anything else captures with a
fresh `txn-` transaction id. -/
def capturePaymentMock (freshTxn : String) (paymentToken : String) : GatewayOutcome :=
  if paymentToken ∈ FAILURE_TOKENS then GatewayOutcome.declined "Payment capture failed"
  else GatewayOutcome.captured ("txn-" ++ freshTxn)

/-- Environment of one handler invocation: the generated fresh values, a
record committed by a concurrent winner between the idempotency read and the
conditional put (if any), the gateway outcome, and whether each of the two
`updateOrderStatus` calls fails with a store error. -/
structure Env where
  fresh : Fresh
  raceInsert : Option Item
  gateway : GatewayOutcome
  capturedUpdateThrows : Bool
  failedUpdateThrows : Bool

/-- A validated checkout request (`CheckoutRequestSchema`). -/
structure CheckoutRequest where
  cartId : String
  items : List CartItem
  paymentToken : String

/-- The structured error of `src/types/index.ts`. -/
structure ErrorDetail where
  code : String
  message : String
  orderId : Option String
deriving DecidableEq

/-- `CheckoutResponse`: success with an order or failure with an error. -/
inductive CheckoutResponse
  | ok (order : Order)
  | err (error : ErrorDetail)
deriving DecidableEq

/-- Arguments of one `capturePayment` call made by the handler. -/
structure PaymentCall where
  orderId : Option String
  amount : Option ℚ
  paymentToken : String
deriving DecidableEq

/-- Observable result of one handler invocation: HTTP status, response body,
the store afterwards, and the payment-gateway calls made. -/
structure HandlerResult where
  statusCode : ℕ
  body : CheckoutResponse
  store : Store
  paymentCalls : List PaymentCall
deriving DecidableEq

/-- The 500 response body built by the handler's outer catch. -/
def internalErrorBody : CheckoutResponse :=
  CheckoutResponse.err
    { code := "INTERNAL_ERROR", message := "An unexpected error occurred", orderId := none }

/-- Steps 6–7 of the handler (`src/handlers/checkout.ts` lines 79–127): the
try block around `capturePayment` and the post-capture
`updateOrderStatus`, and its catch that marks the order `PAYMENT_FAILED`
and answers 402 for a `PaymentError` or rethrows anything else into the
outer catch (500). -/
def paymentPhase (env : Env) (store2 : Store) (req : CheckoutRequest)
    (order : Order) : HandlerResult :=
  let call : PaymentCall :=
    { orderId := order.orderId, amount := order.total, paymentToken := req.paymentToken }
  match env.gateway with
  | GatewayOutcome.captured txn =>
      if env.capturedUpdateThrows then
        if env.failedUpdateThrows then
          { statusCode := 500, body := internalErrorBody, store := store2,
            paymentCalls := [call] }
        else
          { statusCode := 500, body := internalErrorBody,
            store := updateOrderStatus store2 req.cartId OrderStatus.PAYMENT_FAILED none,
            paymentCalls := [call] }
      else
        { statusCode := 201,
          body := CheckoutResponse.ok
            { order with
              status := some OrderStatus.PAYMENT_CAPTURED,
              transactionId := some txn },
          store := updateOrderStatus store2 req.cartId OrderStatus.PAYMENT_CAPTURED (some txn),
          paymentCalls := [call] }
  | GatewayOutcome.declined message =>
      if env.failedUpdateThrows then
        { statusCode := 500, body := internalErrorBody, store := store2,
          paymentCalls := [call] }
      else
        { statusCode := 402,
          body := CheckoutResponse.err
            { code := "PAYMENT_FAILED", message := message, orderId := order.orderId },
          store := updateOrderStatus store2 req.cartId OrderStatus.PAYMENT_FAILED none,
          paymentCalls := [call] }
  | GatewayOutcome.unexpected _ =>
      if env.failedUpdateThrows then
        { statusCode := 500, body := internalErrorBody, store := store2,
          paymentCalls := [call] }
      else
        { statusCode := 500, body := internalErrorBody,
          store := updateOrderStatus store2 req.cartId OrderStatus.PAYMENT_FAILED none,
          paymentCalls := [call] }

/-- The checkout handler (`src/handlers/checkout.ts`), from the point where
the request body has been validated: idempotency read, pricing, conditional
create (with a possible concurrent winner committing in between), then the
payment phase. -/
def handler (env : Env) (store : Store) (req : CheckoutRequest) : HandlerResult :=
  match getExistingOrder store req.cartId with
  | some existingOrder =>
      { statusCode := 200, body := CheckoutResponse.ok existingOrder, store := store,
        paymentCalls := [] }
  | none =>
      let pricing := calculatePricing req.items
      let store1 :=
        match env.raceInsert with
        | some record => insertStore store req.cartId record
        | none => store
      match createOrder env.fresh store1 req.cartId req.paymentToken pricing with
      | Except.error _ =>
          { statusCode := 500, body := internalErrorBody, store := store1,
            paymentCalls := [] }
      | Except.ok created =>
          if created.isExisting then
            { statusCode := 200, body := CheckoutResponse.ok created.order,
              store := created.store, paymentCalls := [] }
          else
            paymentPhase env created.store req created.order

/-- Run a sequence of invocations against an initial store, returning the
final store and the total number of payment-gateway calls. -/
def runSeq (invocations : List (Env × CheckoutRequest)) (store : Store) : Store × ℕ :=
  match invocations with
  | [] => (store, 0)
  | (env, req) :: rest =>
      let result := handler env store req
      let next := runSeq rest result.store
      (next.1, result.paymentCalls.length + next.2)

/-- Replace every stored payment token.  Two stores whose records differ only
in `paymentToken` both erase to the same store. -/
def eraseTokens (store : Store) : Store :=
  store.map (fun kv => (kv.1, { kv.2 with paymentToken := none }))

/-! Concrete fixtures used by witnesses and counterexamples. -/

/-- The two-item cart used throughout the repository's tests. -/
def demoItems : List CartItem :=
  [{ productId := "p1", name := "Widget", price := 29.99, quantity := 2 },
   { productId := "p2", name := "Cable", price := 9.99, quantity := 1 }]

/-- A validated request for the demo cart. -/
def demoReq : CheckoutRequest :=
  { cartId := "cart-123", items := demoItems, paymentToken := "tok_valid" }

/-- Fresh values for the demo invocation. -/
def demoFresh : Fresh :=
  { orderId := "ord-1", createdAt := "2026-02-20T12:00:00.000Z", ttl := 1740000000 }

/-- Demo environment: no race, capture succeeds, no store faults. -/
def demoEnv : Env :=
  { fresh := demoFresh, raceInsert := none,
    gateway := GatewayOutcome.captured "txn-mock-123",
    capturedUpdateThrows := false, failedUpdateThrows := false }

/-- Pricing of the demo cart. -/
def demoPricing : PricingResult := calculatePricing demoItems

/-- The order record the demo invocation writes. -/
def demoRecord : Item := newOrderRecord demoFresh "cart-123" "tok_valid" demoPricing

/-- Record committed by a concurrent winner of the demo cart's creation race. -/
def raceRecord : Item :=
  newOrderRecord
    { orderId := "ord-2", createdAt := "2026-02-20T12:00:01.000Z", ttl := 1740000000 }
    "cart-123" "tok_other" demoPricing

/-- Demo environment that loses the creation race. -/
def raceEnv : Env := { demoEnv with raceInsert := some raceRecord }

/-- Demo environment in which the gateway declines the charge. -/
def declinedEnv : Env :=
  { demoEnv with gateway := GatewayOutcome.declined "Payment capture failed" }

/-- Demo environment in which the gateway raises a non-PaymentError exception. -/
def unexpectedEnv : Env :=
  { demoEnv with gateway := GatewayOutcome.unexpected "Network timeout" }

/-- Demo environment in which capture succeeds but the post-capture
status update fails with a store error. -/
def captureStoreFailEnv : Env := { demoEnv with capturedUpdateThrows := true }

/-- The demo cart with different product ids and names but the same prices
and quantities. -/
def demoItemsRenamed : List CartItem :=
  [{ productId := "x1", name := "Other", price := 29.99, quantity := 2 },
   { productId := "x2", name := "Thing", price := 9.99, quantity := 1 }]





/-! Store lemmas. -/

theorem lookupStore_insert (s : Store) (c c2 : String) (it : Item) :
    lookupStore (insertStore s c it) c2 = if c = c2 then some it else lookupStore s c2 := by
  simp [insertStore, lookupStore]

theorem lookupStore_replace_self (s : Store) (c : String) (nit : Item)
    (h : (lookupStore s c).isSome) :
    lookupStore (replaceStore s c nit) c = some nit := by
  induction s with
  | nil => simp [lookupStore] at h
  | cons kv rest ih =>
      obtain ⟨k, v⟩ := kv
      by_cases hk : k = c
      · simp [replaceStore, lookupStore, hk]
      · simp only [replaceStore, lookupStore, hk, if_false, if_neg hk] at h ⊢
        exact ih h

theorem lookupStore_replace_isSome (s : Store) (c c2 : String) (nit : Item) :
    (lookupStore (replaceStore s c nit) c2).isSome = (lookupStore s c2).isSome := by
  induction s with
  | nil => simp [replaceStore]
  | cons kv rest ih =>
      obtain ⟨k, v⟩ := kv
      by_cases hk : k = c
      · subst hk
        simp only [replaceStore, if_pos rfl, lookupStore]
        by_cases hk2 : k = c2 <;> simp [hk2]
      · simp only [replaceStore, if_neg hk, lookupStore]
        by_cases hk2 : k = c2 <;> simp [hk2, ih]

theorem lookupStore_update_self (s : Store) (c : String) (st : OrderStatus)
    (tx : Option String) : (lookupStore (updateOrderStatus s c st tx) c).isSome := by
  unfold updateOrderStatus
  cases h : lookupStore s c with
  | none => simp [h, lookupStore_insert]
  | some it => simp [h, lookupStore_replace_self, Option.isSome]

theorem lookupStore_update_isSome (s : Store) (c c2 : String) (st : OrderStatus)
    (tx : Option String) (h : (lookupStore s c2).isSome) :
    (lookupStore (updateOrderStatus s c st tx) c2).isSome := by
  unfold updateOrderStatus
  cases hc : lookupStore s c with
  | none =>
      simp only [hc, lookupStore_insert]
      split
      · rfl
      · exact h
  | some it => simp [hc, lookupStore_replace_isSome, h]

theorem getExistingOrder_none {s : Store} {c : String} (h : lookupStore s c = none) :
    getExistingOrder s c = none := by
  simp [getExistingOrder, h]

theorem getExistingOrder_some {s : Store} {c : String} {it : Item}
    (h : lookupStore s c = some it) :
    getExistingOrder s c = some (mapRecordToOrder it) := by
  simp [getExistingOrder, h]

theorem createOrder_absent {f : Fresh} {s : Store} {c tok : String} {p : PricingResult}
    (h : lookupStore s c = none) :
    createOrder f s c tok p = Except.ok
      { order := mapRecordToOrder (newOrderRecord f c tok p), isExisting := false,
        store := insertStore s c (newOrderRecord f c tok p) } := by
  simp [createOrder, h]

theorem createOrder_present {f : Fresh} {s : Store} {c tok : String} {p : PricingResult}
    {it : Item} (h : lookupStore s c = some it) :
    createOrder f s c tok p = Except.ok
      { order := mapRecordToOrder it, isExisting := true, store := s } := by
  simp [createOrder, h, getExistingOrder]

theorem handler_existing {env : Env} {store : Store} {req : CheckoutRequest} {it : Item}
    (h : lookupStore store req.cartId = some it) :
    handler env store req =
      { statusCode := 200, body := CheckoutResponse.ok (mapRecordToOrder it),
        store := store, paymentCalls := [] } := by
  unfold handler
  rw [getExistingOrder_some h]

theorem handler_absent_race {env : Env} {store : Store} {req : CheckoutRequest} {r : Item}
    (hs : lookupStore store req.cartId = none) (hr : env.raceInsert = some r) :
    handler env store req =
      { statusCode := 200, body := CheckoutResponse.ok (mapRecordToOrder r),
        store := insertStore store req.cartId r, paymentCalls := [] } := by
  have hlook : lookupStore (insertStore store req.cartId r) req.cartId = some r := by
    simp [lookupStore_insert]
  simp only [handler, getExistingOrder_none hs, hr]
  rw [createOrder_present hlook]
  rfl

theorem handler_absent_norace {env : Env} {store : Store} {req : CheckoutRequest}
    (hs : lookupStore store req.cartId = none) (hr : env.raceInsert = none) :
    handler env store req =
      paymentPhase env
        (insertStore store req.cartId
          (newOrderRecord env.fresh req.cartId req.paymentToken (calculatePricing req.items)))
        req
        (mapRecordToOrder
          (newOrderRecord env.fresh req.cartId req.paymentToken (calculatePricing req.items))) := by
  simp only [handler, getExistingOrder_none hs, hr]
  rw [createOrder_absent hs]
  rfl

theorem paymentPhase_calls (env : Env) (s2 : Store) (req : CheckoutRequest) (o : Order) :
    (paymentPhase env s2 req o).paymentCalls =
      [{ orderId := o.orderId, amount := o.total, paymentToken := req.paymentToken }] := by
  cases hg : env.gateway <;> simp only [paymentPhase, hg] <;> split_ifs <;> rfl

theorem paymentPhase_presence {env : Env} {s2 : Store} {req : CheckoutRequest} {o : Order}
    (h : (lookupStore s2 req.cartId).isSome) :
    (lookupStore (paymentPhase env s2 req o).store req.cartId).isSome := by
  cases hg : env.gateway <;> simp only [paymentPhase, hg] <;> split_ifs <;> dsimp only <;>
    first
      | exact h
      | exact lookupStore_update_isSome s2 req.cartId req.cartId _ _ h

theorem handler_store_presence (env : Env) (store : Store) (req : CheckoutRequest) :
    (lookupStore (handler env store req).store req.cartId).isSome := by
  cases hx : lookupStore store req.cartId with
  | some it => rw [handler_existing hx]; simp [hx]
  | none =>
      cases hr : env.raceInsert with
      | some r =>
          rw [handler_absent_race hx hr]
          simp [lookupStore_insert]
      | none =>
          rw [handler_absent_norace hx hr]
          exact paymentPhase_presence (by simp [lookupStore_insert])

theorem handler_calls_le_one (env : Env) (store : Store) (req : CheckoutRequest) :
    (handler env store req).paymentCalls.length ≤ 1 := by
  cases hx : lookupStore store req.cartId with
  | some it => rw [handler_existing hx]; simp
  | none =>
      cases hr : env.raceInsert with
      | some r => rw [handler_absent_race hx hr]; simp
      | none => rw [handler_absent_norace hx hr]; rw [paymentPhase_calls]; simp

theorem handler_calls_present_zero {env : Env} {store : Store} {req : CheckoutRequest}
    (h : (lookupStore store req.cartId).isSome) :
    (handler env store req).paymentCalls = [] := by
  obtain ⟨it, hx⟩ := Option.isSome_iff_exists.mp h
  rw [handler_existing hx]

theorem runSeq_calls (invs : List (Env × CheckoutRequest)) (store : Store) (c : String)
    (hc : ∀ p ∈ invs, p.2.cartId = c) :
    (runSeq invs store).2 ≤ 1 ∧ ((lookupStore store c).isSome → (runSeq invs store).2 = 0) := by
  induction invs generalizing store with
  | nil => simp [runSeq]
  | cons p rest ih =>
      obtain ⟨env, req⟩ := p
      have hreq : req.cartId = c := hc (env, req) (by simp)
      have hrest : ∀ q ∈ rest, q.2.cartId = c := fun q hq => hc q (by simp [hq])
      subst hreq
      simp only [runSeq]
      cases hx : lookupStore store req.cartId with
      | some it =>
          rw [handler_existing hx]
          have h0 := (ih store hrest).2 (by simp [hx])
          simp [h0]
      | none =>
          have hpres := handler_store_presence env store req
          have h0 := (ih (handler env store req).store hrest).2 hpres
          have h1 := handler_calls_le_one env store req
          constructor
          · simpa [h0] using h1
          · intro hp
            simp at hp

theorem paymentPhase_captured_ok {env : Env} (s2 : Store) (req : CheckoutRequest)
    (o : Order) {txn : String} (hg : env.gateway = GatewayOutcome.captured txn)
    (hc : env.capturedUpdateThrows = false) :
    paymentPhase env s2 req o =
      { statusCode := 201,
        body := CheckoutResponse.ok
          { o with status := some OrderStatus.PAYMENT_CAPTURED, transactionId := some txn },
        store := updateOrderStatus s2 req.cartId OrderStatus.PAYMENT_CAPTURED (some txn),
        paymentCalls :=
          [{ orderId := o.orderId, amount := o.total, paymentToken := req.paymentToken }] } := by
  simp [paymentPhase, hg, hc]

theorem paymentPhase_captured_updateThrows {env : Env} (s2 : Store) (req : CheckoutRequest)
    (o : Order) {txn : String} (hg : env.gateway = GatewayOutcome.captured txn)
    (hc : env.capturedUpdateThrows = true) (hf : env.failedUpdateThrows = false) :
    paymentPhase env s2 req o =
      { statusCode := 500, body := internalErrorBody,
        store := updateOrderStatus s2 req.cartId OrderStatus.PAYMENT_FAILED none,
        paymentCalls :=
          [{ orderId := o.orderId, amount := o.total, paymentToken := req.paymentToken }] } := by
  simp [paymentPhase, hg, hc, hf]

theorem paymentPhase_declined {env : Env} (s2 : Store) (req : CheckoutRequest)
    (o : Order) {m : String} (hg : env.gateway = GatewayOutcome.declined m)
    (hf : env.failedUpdateThrows = false) :
    paymentPhase env s2 req o =
      { statusCode := 402,
        body := CheckoutResponse.err
          { code := "PAYMENT_FAILED", message := m, orderId := o.orderId },
        store := updateOrderStatus s2 req.cartId OrderStatus.PAYMENT_FAILED none,
        paymentCalls :=
          [{ orderId := o.orderId, amount := o.total, paymentToken := req.paymentToken }] } := by
  simp [paymentPhase, hg, hf]

theorem paymentPhase_unexpected {env : Env} (s2 : Store) (req : CheckoutRequest)
    (o : Order) {m : String} (hg : env.gateway = GatewayOutcome.unexpected m)
    (hf : env.failedUpdateThrows = false) :
    paymentPhase env s2 req o =
      { statusCode := 500, body := internalErrorBody,
        store := updateOrderStatus s2 req.cartId OrderStatus.PAYMENT_FAILED none,
        paymentCalls :=
          [{ orderId := o.orderId, amount := o.total, paymentToken := req.paymentToken }] } := by
  simp [paymentPhase, hg, hf]

theorem updateOrderStatus_insert_none (store : Store) (c : String) (R : Item)
    (st : OrderStatus) :
    updateOrderStatus (insertStore store c R) c st none =
      replaceStore (insertStore store c R) c { R with status := some st } := by
  have h1 : lookupStore (insertStore store c R) c = some R := by simp [lookupStore_insert]
  simp [updateOrderStatus, h1, txnProvided]

theorem lookup_update_insert (store : Store) (c : String) (R : Item) (st : OrderStatus) :
    lookupStore (updateOrderStatus (insertStore store c R) c st none) c =
      some { R with status := some st } := by
  rw [updateOrderStatus_insert_none]
  exact lookupStore_replace_self _ _ _ (by simp [lookupStore_insert])

theorem getExistingOrder_inv {s : Store} {c : String} {o : Order}
    (h : getExistingOrder s c = some o) :
    ∃ it, lookupStore s c = some it ∧ o = mapRecordToOrder it := by
  cases hx : lookupStore s c with
  | none => rw [getExistingOrder_none hx] at h; exact absurd h (by simp)
  | some it =>
      rw [getExistingOrder_some hx] at h
      exact ⟨it, rfl, by simpa using h.symm⟩

theorem not_mem_keys_of_lookup_none {s : Store} {c : String}
    (h : lookupStore s c = none) : c ∉ s.map Prod.fst := by
  induction s with
  | nil => simp
  | cons kv rest ih =>
      obtain ⟨k, v⟩ := kv
      by_cases hk : k = c
      · simp [lookupStore, hk] at h
      · simp only [lookupStore, if_neg hk] at h
        simp [ih h, Ne.symm hk]

theorem foldl_add_lineTotal (l : List PricedItem) (a : ℚ) :
    l.foldl (fun sum item => sum + item.lineTotal) a =
      (l.map PricedItem.lineTotal).foldl (fun x y => x + y) a := by
  induction l generalizing a with
  | nil => rfl
  | cons x xs ih => simp [List.foldl, List.map, ih]

theorem lineTotals_map_eq {xs ys : List CartItem}
    (h : xs.map (fun i => (i.price, i.quantity)) = ys.map (fun i => (i.price, i.quantity))) :
    (xs.map calculateLineTotal).map PricedItem.lineTotal =
      (ys.map calculateLineTotal).map PricedItem.lineTotal := by
  induction xs generalizing ys with
  | nil =>
      cases ys with
      | nil => rfl
      | cons y ys => simp at h
  | cons x xs ih =>
      cases ys with
      | nil => simp at h
      | cons y ys =>
          simp only [List.map, List.cons.injEq, Prod.mk.injEq] at h
          obtain ⟨⟨hp, hq⟩, ht⟩ := h
          simp only [List.map, List.cons.injEq]
          exact ⟨by simp [calculateLineTotal, hp, hq], ih ht⟩

theorem calculatePricing_subtotal_eq_of_lineTotals {xs ys : List CartItem}
    (h : (xs.map calculateLineTotal).map PricedItem.lineTotal =
      (ys.map calculateLineTotal).map PricedItem.lineTotal) :
    (calculatePricing xs).subtotal = (calculatePricing ys).subtotal := by
  simp only [calculatePricing]
  rw [foldl_add_lineTotal, foldl_add_lineTotal, h]

theorem lookup_eraseTokens (s : Store) (c : String) :
    lookupStore (eraseTokens s) c =
      (lookupStore s c).map (fun it => { it with paymentToken := none }) := by
  induction s with
  | nil => rfl
  | cons kv rest ih =>
      obtain ⟨k, v⟩ := kv
      by_cases hk : k = c
      · simp [eraseTokens, lookupStore, hk]
      · simp only [eraseTokens, List.map_cons, lookupStore, if_neg hk]
        simpa [eraseTokens] using ih

theorem paymentPhase_components (env : Env) (s2 s2' : Store) (req : CheckoutRequest)
    (o : Order) :
    (paymentPhase env s2 req o).statusCode = (paymentPhase env s2' req o).statusCode ∧
    (paymentPhase env s2 req o).body = (paymentPhase env s2' req o).body ∧
    (paymentPhase env s2 req o).paymentCalls = (paymentPhase env s2' req o).paymentCalls := by
  cases hg : env.gateway <;> simp only [paymentPhase, hg] <;> split_ifs <;>
    exact ⟨rfl, rfl, rfl⟩

/-! The claims. -/

/-- C1: an invocation whose `createOrder` reports `isExisting = true` (the
spec's `created = false`, induced here by a concurrent winner committing a
record between the idempotency read and the conditional put) answers 200
with the existing order and makes no payment-gateway call; and across any
sequence of invocations sharing one cartId, the gateway is called at most
once in total. -/
theorem C1_lost_race_no_payment :
    (∀ (env : Env) (store : Store) (req : CheckoutRequest) (r : Item),
      lookupStore store req.cartId = none → env.raceInsert = some r →
      handler env store req =
        { statusCode := 200, body := CheckoutResponse.ok (mapRecordToOrder r),
          store := insertStore store req.cartId r, paymentCalls := [] }) ∧
    (∀ (invs : List (Env × CheckoutRequest)) (store : Store) (c : String),
      (∀ p ∈ invs, p.2.cartId = c) → (runSeq invs store).2 ≤ 1) :=
  ⟨fun _ _ _ _ hs hr => handler_absent_race hs hr,
   fun invs store c hc => (runSeq_calls invs store c hc).1⟩

/-- C1 witness: the demo cart loses the race against `raceRecord` and pays
nothing; a capture run followed by a declined run on the same cartId calls
the gateway once in total. -/
theorem C1_lost_race_no_payment_witness :
    handler raceEnv [] demoReq =
      { statusCode := 200, body := CheckoutResponse.ok (mapRecordToOrder raceRecord),
        store := insertStore [] "cart-123" raceRecord, paymentCalls := [] } ∧
    (runSeq [(demoEnv, demoReq), (declinedEnv, demoReq)] []).2 ≤ 1 :=
  ⟨C1_lost_race_no_payment.1 raceEnv [] demoReq raceRecord rfl rfl,
   C1_lost_race_no_payment.2 [(demoEnv, demoReq), (declinedEnv, demoReq)] [] "cart-123"
     (by intro p hp; fin_cases hp <;> rfl)⟩

/-- C2: when the idempotency read finds an existing order the handler
answers 200 with exactly that order, leaves the store untouched, makes no
payment call, and the answer does not depend on the submitted items or
payment token (so no pricing is computed and no create happens); 201 arises
only when the read found nothing, nobody won a race, the gateway captured,
and the post-capture update succeeded — and then the body is the newly
created order marked captured. -/
theorem C2_existing_order_fast_path :
    (∀ (env : Env) (store : Store) (req : CheckoutRequest) (o : Order),
      getExistingOrder store req.cartId = some o →
      handler env store req =
        { statusCode := 200, body := CheckoutResponse.ok o, store := store,
          paymentCalls := [] } ∧
      ∀ (items2 : List CartItem) (token2 : String),
        handler env store { cartId := req.cartId, items := items2, paymentToken := token2 } =
          { statusCode := 200, body := CheckoutResponse.ok o, store := store,
            paymentCalls := [] }) ∧
    (∀ (env : Env) (store : Store) (req : CheckoutRequest),
      (handler env store req).statusCode = 201 →
      getExistingOrder store req.cartId = none ∧ env.raceInsert = none ∧
      env.capturedUpdateThrows = false ∧
      ∃ txn, env.gateway = GatewayOutcome.captured txn ∧
        (handler env store req).body =
          CheckoutResponse.ok
            { mapRecordToOrder
                (newOrderRecord env.fresh req.cartId req.paymentToken
                  (calculatePricing req.items)) with
              status := some OrderStatus.PAYMENT_CAPTURED,
              transactionId := some txn }) := by
  constructor
  · intro env store req o h
    obtain ⟨it, hx, ho⟩ := getExistingOrder_inv h
    subst ho
    exact ⟨handler_existing hx, fun items2 token2 => handler_existing hx⟩
  · intro env store req h
    cases hx : lookupStore store req.cartId with
    | some it =>
        rw [handler_existing hx] at h
        simp at h
    | none =>
        cases hr : env.raceInsert with
        | some r =>
            rw [handler_absent_race hx hr] at h
            simp at h
        | none =>
            cases hg : env.gateway with
            | captured txn =>
                cases hcap : env.capturedUpdateThrows with
                | false =>
                    refine ⟨getExistingOrder_none hx, rfl, rfl, txn, rfl, ?_⟩
                    rw [handler_absent_norace hx hr,
                      paymentPhase_captured_ok _ _ _ hg hcap]
                | true =>
                    rw [handler_absent_norace hx hr] at h
                    cases hf : env.failedUpdateThrows <;>
                      simp [paymentPhase, hg, hcap, hf] at h
            | declined m =>
                rw [handler_absent_norace hx hr] at h
                cases hf : env.failedUpdateThrows <;>
                  simp [paymentPhase, hg, hf] at h
            | unexpected m =>
                rw [handler_absent_norace hx hr] at h
                cases hf : env.failedUpdateThrows <;>
                  simp [paymentPhase, hg, hf] at h

/-- C2 witness: with the demo order already stored, the handler replays it
with 200, unchanged store and no payment call, for any submitted items. -/
theorem C2_existing_order_fast_path_witness :
    handler demoEnv [("cart-123", demoRecord)] demoReq =
      { statusCode := 200, body := CheckoutResponse.ok (mapRecordToOrder demoRecord),
        store := [("cart-123", demoRecord)], paymentCalls := [] } ∧
    handler demoEnv [("cart-123", demoRecord)]
        { cartId := "cart-123", items := [], paymentToken := "tok_fail" } =
      { statusCode := 200, body := CheckoutResponse.ok (mapRecordToOrder demoRecord),
        store := [("cart-123", demoRecord)], paymentCalls := [] } :=
  ⟨(C2_existing_order_fast_path.1 demoEnv [("cart-123", demoRecord)] demoReq
      (mapRecordToOrder demoRecord) rfl).1,
   (C2_existing_order_fast_path.1 demoEnv [("cart-123", demoRecord)] demoReq
      (mapRecordToOrder demoRecord) rfl).2 [] "tok_fail"⟩

/-- C3 counterexample: on an unexpected (non-PaymentError) gateway
exception — here `Network timeout` against an empty store — the handler
does perform a status update: the persisted order ends at `PAYMENT_FAILED`,
not at `CREATED` as the claim states (the catch at
`src/handlers/checkout.ts` line 110 runs `updateOrderStatus(cartId,
"PAYMENT_FAILED")` before re-throwing). -/
theorem C3_counterexample :
    (handler unexpectedEnv [] demoReq).statusCode = 500 ∧
    (lookupStore (handler unexpectedEnv [] demoReq).store "cart-123").map Item.status =
      some (some OrderStatus.PAYMENT_FAILED) ∧
    ¬ ((lookupStore (handler unexpectedEnv [] demoReq).store "cart-123").map Item.status =
        some (some OrderStatus.CREATED)) := by
  have h2 : (lookupStore (handler unexpectedEnv [] demoReq).store "cart-123").map Item.status =
      some (some OrderStatus.PAYMENT_FAILED) := rfl
  refine ⟨rfl, h2, fun h => ?_⟩
  rw [h2] at h
  simp at h

/-- C3 amended: on an unexpected non-PaymentError gateway exception the
handler still runs `updateStatus(cartId, PAYMENT_FAILED)` before
propagating the error as a generic 500 internal error; the persisted order
ends at `PAYMENT_FAILED` with no transactionId (not at `CREATED`). -/
theorem C3_unexpected_error_still_updates :
    ∀ (env : Env) (store : Store) (req : CheckoutRequest) (m : String),
      lookupStore store req.cartId = none → env.raceInsert = none →
      env.gateway = GatewayOutcome.unexpected m → env.failedUpdateThrows = false →
      (handler env store req).statusCode = 500 ∧
      (handler env store req).body = internalErrorBody ∧
      lookupStore (handler env store req).store req.cartId =
        some { newOrderRecord env.fresh req.cartId req.paymentToken
                 (calculatePricing req.items) with
               status := some OrderStatus.PAYMENT_FAILED } ∧
      (lookupStore (handler env store req).store req.cartId).map Item.transactionId =
        some none := by
  intro env store req m hx hr hg hf
  rw [handler_absent_norace hx hr, paymentPhase_unexpected _ _ _ hg hf]
  refine ⟨rfl, rfl, lookup_update_insert _ _ _ _, ?_⟩
  rw [lookup_update_insert]
  rfl

/-- C3 amended witness: the `Network timeout` run against an empty store. -/
theorem C3_unexpected_error_still_updates_witness :
    (handler unexpectedEnv [] demoReq).statusCode = 500 ∧
    (handler unexpectedEnv [] demoReq).body = internalErrorBody ∧
    lookupStore (handler unexpectedEnv [] demoReq).store "cart-123" =
      some { newOrderRecord unexpectedEnv.fresh "cart-123" "tok_valid"
               (calculatePricing demoItems) with
             status := some OrderStatus.PAYMENT_FAILED } ∧
    (lookupStore (handler unexpectedEnv [] demoReq).store "cart-123").map Item.transactionId =
      some none :=
  C3_unexpected_error_still_updates unexpectedEnv [] demoReq "Network timeout"
    rfl rfl rfl rfl

/-- C4 counterexample: `updateOrderStatus` against an empty store — no
record exists for the cartId — succeeds and creates an item (DynamoDB
`UpdateCommand` upsert), instead of failing with NotFound as the claim
states. -/
theorem C4_counterexample :
    updateOrderStatus [] "cart-123" OrderStatus.PAYMENT_FAILED none =
      [("cart-123",
        { emptyItem with
          cartId := some "cart-123",
          status := some OrderStatus.PAYMENT_FAILED })] ∧
    (lookupStore (updateOrderStatus [] "cart-123" OrderStatus.PAYMENT_FAILED none)
      "cart-123").isSome = true :=
  ⟨rfl, rfl⟩

/-- C4 amended: `updateOrderStatus` never signals NotFound — the
`UpdateCommand` carries no condition expression, so it is an upsert that
always succeeds: with no record for cartId it creates an item holding only
the key, the status and (when truthy) the transactionId; with a record
present it updates that record in place; in both cases a record for cartId
exists afterwards. -/
theorem C4_updateStatus_is_upsert :
    ∀ (store : Store) (c : String) (st : OrderStatus) (tx : Option String),
      (lookupStore store c = none →
        updateOrderStatus store c st tx =
          insertStore store c
            { emptyItem with
              cartId := some c, status := some st,
              transactionId := if txnProvided tx then tx else none }) ∧
      (∀ it, lookupStore store c = some it →
        updateOrderStatus store c st tx =
          replaceStore store c
            { it with
              status := some st,
              transactionId := if txnProvided tx then tx else it.transactionId }) ∧
      (lookupStore (updateOrderStatus store c st tx) c).isSome := by
  intro store c st tx
  refine ⟨fun h => ?_, fun it h => ?_, lookupStore_update_self store c st tx⟩
  · simp [updateOrderStatus, h]
  · simp [updateOrderStatus, h]

/-- C4 amended witness: the empty-store upsert creates the item; updating
the stored demo record rewrites it in place. -/
theorem C4_updateStatus_is_upsert_witness :
    updateOrderStatus [] "cart-9" OrderStatus.PAYMENT_FAILED none =
      insertStore [] "cart-9"
        { emptyItem with
          cartId := some "cart-9",
          status := some OrderStatus.PAYMENT_FAILED, transactionId := none } ∧
    updateOrderStatus [("cart-123", demoRecord)] "cart-123"
        OrderStatus.PAYMENT_CAPTURED (some "txn-abc") =
      replaceStore [("cart-123", demoRecord)] "cart-123"
        { demoRecord with
          status := some OrderStatus.PAYMENT_CAPTURED,
          transactionId := some "txn-abc" } :=
  ⟨(C4_updateStatus_is_upsert [] "cart-9" OrderStatus.PAYMENT_FAILED none).1 rfl,
   (C4_updateStatus_is_upsert [("cart-123", demoRecord)] "cart-123"
      OrderStatus.PAYMENT_CAPTURED (some "txn-abc")).2.1 demoRecord rfl⟩

/-- C5: when the gateway capture succeeds but the post-capture
`updateOrderStatus(cartId, PAYMENT_CAPTURED, txn)` throws, the catch around
the whole payment step runs `updateOrderStatus(cartId, PAYMENT_FAILED)`:
the invocation made exactly one (successful) capture call, yet the
persisted order ends at `PAYMENT_FAILED` with no transactionId, and the
response is a 500 — the catch cannot tell capture failures from
post-capture store failures. -/
theorem C5_captured_payment_marked_failed :
    ∀ (env : Env) (store : Store) (req : CheckoutRequest) (txn : String),
      lookupStore store req.cartId = none → env.raceInsert = none →
      env.gateway = GatewayOutcome.captured txn → env.capturedUpdateThrows = true →
      env.failedUpdateThrows = false →
      (handler env store req).paymentCalls =
        [{ orderId := some env.fresh.orderId,
           amount := some (calculatePricing req.items).total,
           paymentToken := req.paymentToken }] ∧
      (handler env store req).statusCode = 500 ∧
      lookupStore (handler env store req).store req.cartId =
        some { newOrderRecord env.fresh req.cartId req.paymentToken
                 (calculatePricing req.items) with
               status := some OrderStatus.PAYMENT_FAILED } ∧
      (lookupStore (handler env store req).store req.cartId).map Item.transactionId =
        some none := by
  intro env store req txn hx hr hg hcap hf
  rw [handler_absent_norace hx hr, paymentPhase_captured_updateThrows _ _ _ hg hcap hf]
  refine ⟨rfl, rfl, lookup_update_insert _ _ _ _, ?_⟩
  rw [lookup_update_insert]
  rfl

/-- C5 witness: the demo run in which capture succeeds and the post-capture
update throws. -/
theorem C5_captured_payment_marked_failed_witness :
    (handler captureStoreFailEnv [] demoReq).paymentCalls =
      [{ orderId := some "ord-1",
         amount := some (calculatePricing demoItems).total,
         paymentToken := "tok_valid" }] ∧
    (handler captureStoreFailEnv [] demoReq).statusCode = 500 ∧
    lookupStore (handler captureStoreFailEnv [] demoReq).store "cart-123" =
      some { newOrderRecord captureStoreFailEnv.fresh "cart-123" "tok_valid"
               (calculatePricing demoItems) with
             status := some OrderStatus.PAYMENT_FAILED } ∧
    (lookupStore (handler captureStoreFailEnv [] demoReq).store "cart-123").map
        Item.transactionId = some none :=
  C5_captured_payment_marked_failed captureStoreFailEnv [] demoReq "txn-mock-123"
    rfl rfl rfl rfl rfl

/-- C6: pricing the demo cart gives lineTotals [59.98, 9.99], subtotal
69.97, tax 7.00 and total 76.97; tax is `round2(subtotal * 0.10)` and total
is `round2(subtotal + tax)` for every cart; and the numeric outputs depend
only on each item's price and quantity (any other client-supplied data is
ignored). -/
theorem C6_pricing_deterministic :
    (calculatePricing demoItems).items.map PricedItem.lineTotal = [59.98, 9.99] ∧
    (calculatePricing demoItems).subtotal = 69.97 ∧
    (calculatePricing demoItems).tax = 7 ∧
    (calculatePricing demoItems).total = 76.97 ∧
    (∀ items : List CartItem,
      (calculatePricing items).tax = roundTo2 ((calculatePricing items).subtotal * TAX_RATE)) ∧
    (∀ items : List CartItem,
      (calculatePricing items).total =
        roundTo2 ((calculatePricing items).subtotal + (calculatePricing items).tax)) ∧
    (∀ xs ys : List CartItem,
      xs.map (fun i => (i.price, i.quantity)) = ys.map (fun i => (i.price, i.quantity)) →
      (calculatePricing xs).items.map PricedItem.lineTotal =
        (calculatePricing ys).items.map PricedItem.lineTotal ∧
      (calculatePricing xs).subtotal = (calculatePricing ys).subtotal ∧
      (calculatePricing xs).tax = (calculatePricing ys).tax ∧
      (calculatePricing xs).total = (calculatePricing ys).total) := by
  refine ⟨?_, ?_, ?_, ?_, fun items => rfl, fun items => rfl, ?_⟩
  · simp only [demoItems, calculatePricing, calculateLineTotal, roundTo2, mathRound,
      TAX_RATE, numberEPSILON, List.map, List.foldl]
    norm_num
  · simp only [demoItems, calculatePricing, calculateLineTotal, roundTo2, mathRound,
      TAX_RATE, numberEPSILON, List.map, List.foldl]
    norm_num
  · simp only [demoItems, calculatePricing, calculateLineTotal, roundTo2, mathRound,
      TAX_RATE, numberEPSILON, List.map, List.foldl]
    norm_num
  · simp only [demoItems, calculatePricing, calculateLineTotal, roundTo2, mathRound,
      TAX_RATE, numberEPSILON, List.map, List.foldl]
    norm_num
  · intro xs ys h
    have hl := lineTotals_map_eq h
    have hsub := calculatePricing_subtotal_eq_of_lineTotals hl
    have stx : ∀ zs : List CartItem,
        (calculatePricing zs).tax = roundTo2 ((calculatePricing zs).subtotal * TAX_RATE) :=
      fun _ => rfl
    have stt : ∀ zs : List CartItem,
        (calculatePricing zs).total =
          roundTo2 ((calculatePricing zs).subtotal + (calculatePricing zs).tax) :=
      fun _ => rfl
    have htax : (calculatePricing xs).tax = (calculatePricing ys).tax := by
      rw [stx xs, stx ys, hsub]
    have htot : (calculatePricing xs).total = (calculatePricing ys).total := by
      rw [stt xs, stt ys, hsub, htax]
    exact ⟨hl, hsub, htax, htot⟩

/-- C6 witness: the demo cart and a renamed copy with the same prices and
quantities price identically. -/
theorem C6_pricing_deterministic_witness :
    (calculatePricing demoItemsRenamed).items.map PricedItem.lineTotal =
      (calculatePricing demoItems).items.map PricedItem.lineTotal ∧
    (calculatePricing demoItemsRenamed).subtotal = (calculatePricing demoItems).subtotal ∧
    (calculatePricing demoItemsRenamed).tax = (calculatePricing demoItems).tax ∧
    (calculatePricing demoItemsRenamed).total = (calculatePricing demoItems).total :=
  C6_pricing_deterministic.2.2.2.2.2.2 demoItemsRenamed demoItems rfl

/-- C7: two-decimal rounding (`Math.round` of the scaled value, i.e. halves
away from zero on these positive amounts) is applied independently at the
line, subtotal and tax stages, never only at the end: `1.11 * 3` yields
lineTotal exactly `3.33`, tax on subtotal `33.33` is exactly `3.33`
(3.333 rounds down), and `0.005` rounds up to `0.01`. -/
theorem C7_rounding_each_stage :
    (calculatePricing [{ productId := "p1", name := "A", price := 1.11, quantity := 3 }]).items.map
        PricedItem.lineTotal = [3.33] ∧
    (calculatePricing [{ productId := "p1", name := "A", price := 33.33, quantity := 1 }]).tax =
      3.33 ∧
    roundTo2 (5 / 1000) = 1 / 100 ∧
    (∀ items : List CartItem,
      (calculatePricing items).items.map PricedItem.lineTotal =
        items.map (fun i => roundTo2 (i.price * (i.quantity : ℚ)))) ∧
    (∀ items : List CartItem,
      (calculatePricing items).subtotal =
        roundTo2 (((calculatePricing items).items.map PricedItem.lineTotal).foldl
          (fun x y => x + y) 0)) ∧
    (∀ items : List CartItem,
      (calculatePricing items).tax = roundTo2 ((calculatePricing items).subtotal * TAX_RATE)) := by
  refine ⟨?_, ?_, ?_, ?_, ?_, fun items => rfl⟩
  · simp only [calculatePricing, calculateLineTotal, roundTo2, mathRound,
      TAX_RATE, numberEPSILON, List.map, List.foldl]
    norm_num
  · simp only [calculatePricing, calculateLineTotal, roundTo2, mathRound,
      TAX_RATE, numberEPSILON, List.map, List.foldl]
    norm_num
  · simp only [roundTo2, mathRound, numberEPSILON]
    norm_num
  · intro items
    simp [calculatePricing, List.map_map, Function.comp, calculateLineTotal]
  · intro items
    rw [show (calculatePricing items).subtotal =
        roundTo2 ((items.map calculateLineTotal).foldl
          (fun sum item => sum + item.lineTotal) 0) from rfl,
      foldl_add_lineTotal]
    rfl

/-- C8: a gateway decline leaves the persisted order at `PAYMENT_FAILED`
with no transactionId, its items and totals exactly as frozen at creation,
and answers 402 with the stable `PAYMENT_FAILED` code, the gateway's
message and the orderId — nothing else. -/
theorem C8_decline_failure_isolation :
    ∀ (env : Env) (store : Store) (req : CheckoutRequest) (m : String),
      lookupStore store req.cartId = none → env.raceInsert = none →
      env.gateway = GatewayOutcome.declined m → env.failedUpdateThrows = false →
      (handler env store req).statusCode = 402 ∧
      (handler env store req).body =
        CheckoutResponse.err
          { code := "PAYMENT_FAILED", message := m, orderId := some env.fresh.orderId } ∧
      lookupStore (handler env store req).store req.cartId =
        some { newOrderRecord env.fresh req.cartId req.paymentToken
                 (calculatePricing req.items) with
               status := some OrderStatus.PAYMENT_FAILED } ∧
      (lookupStore (handler env store req).store req.cartId).map Item.transactionId =
        some none ∧
      (lookupStore (handler env store req).store req.cartId).map Item.items =
        some (some (calculatePricing req.items).items) ∧
      (lookupStore (handler env store req).store req.cartId).map Item.subtotal =
        some (some (calculatePricing req.items).subtotal) ∧
      (lookupStore (handler env store req).store req.cartId).map Item.tax =
        some (some (calculatePricing req.items).tax) ∧
      (lookupStore (handler env store req).store req.cartId).map Item.total =
        some (some (calculatePricing req.items).total) := by
  intro env store req m hx hr hg hf
  have hres := (handler_absent_norace hx hr).trans (paymentPhase_declined _ _ _ hg hf)
  have hmap : lookupStore (handler env store req).store req.cartId =
      some { newOrderRecord env.fresh req.cartId req.paymentToken
               (calculatePricing req.items) with
             status := some OrderStatus.PAYMENT_FAILED } := by
    rw [hres]
    exact lookup_update_insert _ _ _ _
  exact ⟨by rw [hres], by rw [hres]; rfl, hmap, by rw [hmap]; rfl, by rw [hmap]; rfl,
    by rw [hmap]; rfl, by rw [hmap]; rfl, by rw [hmap]; rfl⟩

/-- C8 witness: the demo cart with a declining gateway. -/
theorem C8_decline_failure_isolation_witness :
    (handler declinedEnv [] demoReq).statusCode = 402 ∧
    (handler declinedEnv [] demoReq).body =
      CheckoutResponse.err
        { code := "PAYMENT_FAILED", message := "Payment capture failed",
          orderId := some "ord-1" } ∧
    lookupStore (handler declinedEnv [] demoReq).store "cart-123" =
      some { demoRecord with status := some OrderStatus.PAYMENT_FAILED } ∧
    (lookupStore (handler declinedEnv [] demoReq).store "cart-123").map Item.transactionId =
      some none ∧
    (lookupStore (handler declinedEnv [] demoReq).store "cart-123").map Item.items =
      some (some demoPricing.items) ∧
    (lookupStore (handler declinedEnv [] demoReq).store "cart-123").map Item.subtotal =
      some (some demoPricing.subtotal) ∧
    (lookupStore (handler declinedEnv [] demoReq).store "cart-123").map Item.tax =
      some (some demoPricing.tax) ∧
    (lookupStore (handler declinedEnv [] demoReq).store "cart-123").map Item.total =
      some (some demoPricing.total) :=
  C8_decline_failure_isolation declinedEnv [] demoReq "Payment capture failed"
    rfl rfl rfl rfl

/-- C9: the conditional create persists a fresh order — status `CREATED`,
no transactionId, items and totals frozen from the pricing result — and
returns it with `isExisting = false` (the spec's `created = true`) when the
key was absent; with the key present it returns the stored order with
`isExisting = true` and leaves the store untouched; and it preserves
key uniqueness, so a cartId never maps to two orders. -/
theorem C9_create_if_absent :
    ∀ (f : Fresh) (store : Store) (c tok : String) (p : PricingResult),
      (lookupStore store c = none →
        createOrder f store c tok p = Except.ok
          { order := mapRecordToOrder (newOrderRecord f c tok p), isExisting := false,
            store := insertStore store c (newOrderRecord f c tok p) } ∧
        (newOrderRecord f c tok p).status = some OrderStatus.CREATED ∧
        (newOrderRecord f c tok p).transactionId = none ∧
        (newOrderRecord f c tok p).items = some p.items ∧
        (newOrderRecord f c tok p).subtotal = some p.subtotal ∧
        (newOrderRecord f c tok p).tax = some p.tax ∧
        (newOrderRecord f c tok p).total = some p.total) ∧
      (∀ it, lookupStore store c = some it →
        createOrder f store c tok p = Except.ok
          { order := mapRecordToOrder it, isExisting := true, store := store }) ∧
      ((store.map Prod.fst).Nodup →
        ∀ res, createOrder f store c tok p = Except.ok res →
          (res.store.map Prod.fst).Nodup) := by
  intro f store c tok p
  refine ⟨fun h => ⟨createOrder_absent h, rfl, rfl, rfl, rfl, rfl, rfl⟩,
    fun it h => createOrder_present h, fun hnd res hres => ?_⟩
  cases hx : lookupStore store c with
  | none =>
      rw [createOrder_absent hx] at hres
      simp only [Except.ok.injEq] at hres
      subst hres
      simp only [insertStore, List.map_cons, List.nodup_cons]
      exact ⟨not_mem_keys_of_lookup_none hx, hnd⟩
  | some it =>
      rw [createOrder_present hx] at hres
      simp only [Except.ok.injEq] at hres
      subst hres
      exact hnd

/-- C9 witness: the demo record is created once against an empty store, and
a second create on the populated store returns the stored order unchanged;
key uniqueness is preserved. -/
theorem C9_create_if_absent_witness :
    createOrder demoFresh [] "cart-123" "tok_valid" demoPricing = Except.ok
      { order := mapRecordToOrder (newOrderRecord demoFresh "cart-123" "tok_valid" demoPricing),
        isExisting := false,
        store := insertStore [] "cart-123"
          (newOrderRecord demoFresh "cart-123" "tok_valid" demoPricing) } ∧
    createOrder demoFresh [("cart-123", demoRecord)] "cart-123" "tok_valid" demoPricing =
      Except.ok
        { order := mapRecordToOrder demoRecord, isExisting := true,
          store := [("cart-123", demoRecord)] } ∧
    ((insertStore [] "cart-123"
        (newOrderRecord demoFresh "cart-123" "tok_valid" demoPricing)).map Prod.fst).Nodup :=
  ⟨((C9_create_if_absent demoFresh [] "cart-123" "tok_valid" demoPricing).1 rfl).1,
   (C9_create_if_absent demoFresh [("cart-123", demoRecord)] "cart-123" "tok_valid"
      demoPricing).2.1 demoRecord rfl,
   (C9_create_if_absent demoFresh [] "cart-123" "tok_valid" demoPricing).2.2 (by simp)
     { order := mapRecordToOrder (newOrderRecord demoFresh "cart-123" "tok_valid" demoPricing),
       isExisting := false,
       store := insertStore [] "cart-123"
         (newOrderRecord demoFresh "cart-123" "tok_valid" demoPricing) } rfl⟩

/-- C10: the outbound `Order` shape carries no payment token: mapping a
record to an order is invariant under any change of the stored
`paymentToken` (so two records differing only there yield identical
orders), `get` answers identically on a store with every token erased, and
a whole handler invocation returns the same status, body and payment calls
on the token-erased store. -/
theorem C10_payment_token_never_leaves :
    (∀ (record : Item) (t : Option String),
      mapRecordToOrder { record with paymentToken := t } = mapRecordToOrder record) ∧
    (∀ (store : Store) (c : String),
      getExistingOrder (eraseTokens store) c = getExistingOrder store c) ∧
    (∀ (env : Env) (store : Store) (req : CheckoutRequest),
      (handler env (eraseTokens store) req).statusCode = (handler env store req).statusCode ∧
      (handler env (eraseTokens store) req).body = (handler env store req).body ∧
      (handler env (eraseTokens store) req).paymentCalls =
        (handler env store req).paymentCalls) := by
  refine ⟨fun record t => rfl, fun store c => ?_, fun env store req => ?_⟩
  · unfold getExistingOrder
    rw [lookup_eraseTokens]
    cases lookupStore store c <;> rfl
  · cases hx : lookupStore store req.cartId with
    | some it =>
        have hx' : lookupStore (eraseTokens store) req.cartId =
            some { it with paymentToken := none } := by
          rw [lookup_eraseTokens, hx]
          rfl
        rw [handler_existing hx, handler_existing hx']
        exact ⟨rfl, rfl, rfl⟩
    | none =>
        have hx' : lookupStore (eraseTokens store) req.cartId = none := by
          rw [lookup_eraseTokens, hx]
          rfl
        cases hr : env.raceInsert with
        | some r =>
            rw [handler_absent_race hx hr, handler_absent_race hx' hr]
            exact ⟨rfl, rfl, rfl⟩
        | none =>
            rw [handler_absent_norace hx hr, handler_absent_norace hx' hr]
            exact paymentPhase_components env _ _ req _

end Checkout
